import Mathlib

/-!
Verification of `zerver/lib/event_schema.py`: a shallow embedding of the
event-schema checkers (runtime structural validation of server-to-client
event payloads) together with theorems settling the specification claims.

Events are untyped string-keyed mappings with heterogeneous values; they
are embedded as association lists of `Value`s.  The pydantic models from
`zerver/lib/event_types.py` are not part of the given sources, so they are
modelled from the spec as explicit field lists (name, declared type,
required flag) validated in strict mode (no implicit coercion).  The
checker functions themselves are translated directly from
`event_schema.py`.
-/

/-- A runtime value of the dynamic source language: None, booleans,
integers (unbounded), strings, lists and string-keyed mappings. -/
inductive Value where
  | vNone : Value
  | vBool : Bool → Value
  | vInt : Int → Value
  | vStr : String → Value
  | vList : List Value → Value
  | vDict : List (String × Value) → Value

/-- An event payload: a string-keyed mapping, `dict[str, object]` in the
source.  Keys of a source-language dict are unique; the embedding uses the
first binding for lookups. -/
abbrev EventDict := List (String × Value)

/-- Validation failures. `extraFields` is the ValueError raised by
`validate_with_model` for undeclared keys; `missingField` and
`typeMismatch` are strict-mode model-validation errors; `assertionError`
is a failed `assert` in a semantic checker; `keyError` is a failed
subscript on a mapping or enum. -/
inductive CheckErr where
  | extraFields : List String → CheckErr
  | missingField : String → CheckErr
  | typeMismatch : String → CheckErr
  | assertionError : String → CheckErr
  | keyError : String → CheckErr
deriving DecidableEq

/-- Declared field types of the pydantic models, validated strictly. -/
inductive FieldType where
  | tBool : FieldType
  | tInt : FieldType
  | tStr : FieldType
  | tLiteral : String → FieldType
  | tOptional : FieldType → FieldType
  | tList : FieldType → FieldType
  | tDict : FieldType
  | tUnion : FieldType → FieldType → FieldType
  | tAny : FieldType

/-- Strict-mode conformance of a value to a declared type: tags must match
exactly, so a boolean is not accepted where an integer is declared (no
implicit coercion), mirroring pydantic `model_validate(strict=True)`. -/
def matchesType : FieldType → Value → Bool
  | .tBool, v => match v with | .vBool _ => true | _ => false
  | .tInt, v => match v with | .vInt _ => true | _ => false
  | .tStr, v => match v with | .vStr _ => true | _ => false
  | .tLiteral s, v => match v with | .vStr t => t == s | _ => false
  | .tOptional t, v => match v with | .vNone => true | _ => matchesType t v
  | .tList t, v =>
      match v with
      | .vList xs => xs.all (fun x => matchesType t x)
      | _ => false
  | .tDict, v => match v with | .vDict _ => true | _ => false
  | .tUnion a b, v => matchesType a v || matchesType b v
  | .tAny, _ => true

/-- A pydantic model, embedded as its field declarations:
(field name, declared type, required flag). -/
structure Model where
  fields : List (String × FieldType × Bool)

def allowed_fields (m : Model) : List String :=
  m.fields.map (fun fd => fd.1)

/-- The keys of an event mapping. -/
def keysOf (d : EventDict) : List String := d.map (fun p => p.1)

/-- The keys of `d` that the model does not declare (`set(data.keys()) -
allowed_fields` in the source; a source dict has unique keys, so no
deduplication is modelled). -/
def extra_fields (d : EventDict) (m : Model) : List String :=
  (keysOf d).filter (fun k => !((allowed_fields m).contains k))

/-- Strict validation of the declared fields in declaration order: a
required field must be present, and every present declared field's value
must match its declared type exactly. -/
def validateFields (d : EventDict) : List (String × FieldType × Bool) → Except CheckErr Unit
  | [] => .ok ()
  | (name, ty, req) :: rest =>
    match List.lookup name d with
    | none => if req then .error (.missingField name) else validateFields d rest
    | some v => if matchesType ty v then validateFields d rest else .error (.typeMismatch name)

/-- `model.model_validate(data, strict=True)` on an embedded model. -/
def model_validate_strict (d : EventDict) (m : Model) : Except CheckErr Unit :=
  validateFields d m.fields

/-- Translation of `validate_with_model`: reject undeclared keys first
(raising the extra-fields ValueError naming them), then validate the
declared fields strictly. -/
def validate_with_model (d : EventDict) (m : Model) : Except CheckErr Unit :=
  if (extra_fields d m).isEmpty then model_validate_strict d m
  else .error (.extraFields (extra_fields d m))

/-- Translation of `make_checker`: the produced checker validates the
event against the bound model; the label argument is only interpolated
into the diagnostic printout on failure, which does not affect the
outcome, so it is unused here. -/
def make_checker (m : Model) : String → EventDict → Except CheckErr Unit :=
  fun _label event => validate_with_model event m

/-- Membership-based equality of two key collections, as the source's
`set(a) == set(b)`. -/
def strSetEq (a b : List String) : Bool :=
  a.all (fun k => b.contains k) && b.all (fun k => a.contains k)

/-- Comparison `v == s` of an event value against a string constant; in
the source language a non-string never equals a string. -/
def pyEqStr (v : Value) (s : String) : Bool :=
  match v with
  | .vStr t => t == s
  | _ => false

/-- Comparison `v == n` of an event value against an integer constant;
source-language booleans compare equal to their integer codes
(`True == 1`). -/
def pyEqInt (v : Value) (n : Int) : Bool :=
  match v with
  | .vInt m => m == n
  | .vBool b => (if b then (1 : Int) else 0) == n
  | _ => false

/-- Comparison `v == b` of an event value against a boolean constant;
integers compare equal to the boolean of the same code (`1 == True`). -/
def pyEqBool (v : Value) (b : Bool) : Bool :=
  match v with
  | .vBool a => a == b
  | .vInt m => m == (if b then (1 : Int) else 0)
  | _ => false

/-- Comparison `v == []` against the empty list. -/
def pyIsEmptyList (v : Value) : Bool :=
  match v with
  | .vList [] => true
  | _ => false

/-- `isinstance(v, int)` of the source language: booleans are a subclass
of the integers, so `isinstance(True, int)` holds. -/
def py_isinstance_int (v : Value) : Bool :=
  match v with
  | .vInt _ => true
  | .vBool _ => true
  | _ => false

/-- The exact runtime type name of a value, as `type(v)` produces it:
`type(True)` is `bool`, never `int`. -/
def py_type_name : Value → String
  | .vNone => "NoneType"
  | .vBool _ => "bool"
  | .vInt _ => "int"
  | .vStr _ => "str"
  | .vList _ => "list"
  | .vDict _ => "dict"

/-- An entry of the live property-type catalogs (`Realm.property_types`
and friends): either a plain type or an Enum class with named members. -/
inductive PropType where
  | pBool : PropType
  | pInt : PropType
  | pStr : PropType
  | pEnum : List String → PropType

/-- `isinstance(v, t)` for a plain catalog type.  For `pInt` the
source-language bool-is-int subtyping applies; the checkers never reach
`isinstance` with an Enum class (that branch is dispatched earlier), so
`pEnum` is unreachable and returns false. -/
def py_isinstance (v : Value) : PropType → Bool
  | .pBool => match v with | .vBool _ => true | _ => false
  | .pInt => py_isinstance_int v
  | .pStr => match v with | .vStr _ => true | _ => false
  | .pEnum _ => false

/-- A property-type catalog: the injected read-only lookup owned by the
data-model layer (the source reads the module-level `Realm.property_types`
and similar registries). -/
abbrev PropertyCatalog := String → Option PropType

/-- The empty property-type catalog: every lookup raises KeyError. -/
def empty_property_catalog : PropertyCatalog := fun _ => none

deriving instance DecidableEq for Except

/-- Modelled from the spec: the schema `EventRealmUpdate` from
`zerver/lib/event_types.py` (not among the given sources).  A scalar
realm-update event carries `property` and `value`; the value field must
admit every value kind appearing in the Property Type Catalog (booleans,
integers, strings), so it is declared as their union. -/
def EventRealmUpdate : Model :=
  ⟨[("id", .tInt, true),
    ("type", .tLiteral "realm", true),
    ("op", .tLiteral "update", true),
    ("property", .tStr, true),
    ("value", .tUnion .tBool (.tUnion .tInt .tStr), true)]⟩

/-- Modelled from the spec: the schema `EventDeleteMessage` from
`zerver/lib/event_types.py` (not among the given sources).  The
conditionally required fields (`stream_id`, `topic`, `message_id`,
`message_ids`) are declared optional; the semantic checker enforces the
exact key set. -/
def EventDeleteMessage : Model :=
  ⟨[("id", .tInt, true),
    ("type", .tLiteral "delete_message", true),
    ("message_type", .tStr, true),
    ("message_id", .tInt, false),
    ("message_ids", .tList .tInt, false),
    ("stream_id", .tInt, false),
    ("topic", .tStr, false)]⟩

/-- Modelled from the spec: the schema `EventMutedTopics` from
`zerver/lib/event_types.py` (not among the given sources).  The spec notes
the per-entry 3-tuple shape is "beyond what a field-type schema can
express", so the field schema only declares a list of sequences of
strings-or-integers; the positional check lives in the semantic
checker. -/
def EventMutedTopics : Model :=
  ⟨[("id", .tInt, true),
    ("type", .tLiteral "muted_topics", true),
    ("muted_topics", .tList (.tList (.tUnion .tStr .tInt)), true)]⟩

/-- Modelled from the spec: the schema `EventRealmBotAdd` from
`zerver/lib/event_types.py` (not among the given sources).  The nested
`bot` object is declared as a mapping; its `services` list is validated
against a bot-type-dependent sub-schema by the semantic checker. -/
def EventRealmBotAdd : Model :=
  ⟨[("id", .tInt, true),
    ("type", .tLiteral "realm_bot", true),
    ("op", .tLiteral "add", true),
    ("bot", .tDict, true)]⟩

/-- Modelled from the spec: the schema `EventRealmBotUpdate` from
`zerver/lib/event_types.py` (not among the given sources).  The nested
`bot` object is declared as a mapping; the semantic checker enforces its
exact key set. -/
def EventRealmBotUpdate : Model :=
  ⟨[("id", .tInt, true),
    ("type", .tLiteral "realm_bot", true),
    ("op", .tLiteral "update", true),
    ("bot", .tDict, true)]⟩

/-- Modelled from the spec: the schema `EventRealmUpdateDict` from
`zerver/lib/event_types.py` (not among the given sources).  The union-shaped
`data` field is validated against a discriminant-selected sub-schema by the
semantic checker. -/
def EventRealmUpdateDict : Model :=
  ⟨[("id", .tInt, true),
    ("type", .tLiteral "realm", true),
    ("op", .tLiteral "update_dict", true),
    ("property", .tStr, true),
    ("data", .tDict, true)]⟩

/-- Modelled from the spec: the schema `EventUpdateMessage` from
`zerver/lib/event_types.py` (not among the given sources).  `user_id` is
required but nullable; all flag-dependent fields are optional, with the
exact key set enforced by the semantic checker. -/
def EventUpdateMessage : Model :=
  ⟨[("id", .tInt, true),
    ("type", .tLiteral "update_message", true),
    ("user_id", .tOptional .tInt, true),
    ("edit_timestamp", .tInt, true),
    ("message_id", .tInt, true),
    ("flags", .tList .tStr, true),
    ("message_ids", .tList .tInt, true),
    ("rendering_only", .tBool, true),
    ("stream_id", .tInt, false),
    ("stream_name", .tStr, false),
    ("is_me_message", .tBool, false),
    ("orig_content", .tStr, false),
    ("orig_rendered_content", .tStr, false),
    ("content", .tStr, false),
    ("rendered_content", .tStr, false),
    ("topic_links", .tList .tDict, false),
    ("orig_subject", .tStr, false),
    ("subject", .tStr, false),
    ("propagate_mode", .tStr, false),
    ("new_stream_id", .tInt, false)]⟩

/-- Modelled from the spec: the services sub-schema `BotServicesOutgoing`
for outgoing-webhook bots (from `zerver/lib/event_types.py`, not among the
given sources); the spec does not enumerate its fields, so representative
ones are used. -/
def BotServicesOutgoing : Model :=
  ⟨[("base_url", .tStr, true),
    ("interface", .tInt, true),
    ("token", .tStr, true)]⟩

/-- Modelled from the spec: the services sub-schema `BotServicesEmbedded`
for embedded bots (from `zerver/lib/event_types.py`, not among the given
sources); the spec does not enumerate its fields, so representative ones
are used. -/
def BotServicesEmbedded : Model :=
  ⟨[("service_name", .tStr, true),
    ("config_data", .tDict, true)]⟩

/-- Modelled from the spec: `UserProfile.DEFAULT_BOT` (the default-bot
enumerant; the code lives in `zerver/models`, not among the given sources;
the concrete code is not specified, a distinct integer is chosen). -/
def DEFAULT_BOT : Int := 1

/-- Modelled from the spec: `UserProfile.OUTGOING_WEBHOOK_BOT`. -/
def OUTGOING_WEBHOOK_BOT : Int := 3

/-- Modelled from the spec: `UserProfile.EMBEDDED_BOT`. -/
def EMBEDDED_BOT : Int := 4

/-- Modelled from the spec: `ORIG_TOPIC` from `zerver/lib/topic` (not
among the given sources): the key naming the pre-edit topic. -/
def ORIG_TOPIC : String := "orig_subject"

/-- Modelled from the spec: `TOPIC_NAME` from `zerver/lib/topic` (not
among the given sources): the key naming the topic. -/
def TOPIC_NAME : String := "subject"

/-- Modelled from the spec: `Realm.REALM_PERMISSION_GROUP_SETTINGS` (from
`zerver/models`, not among the given sources): the known set of
permission-group setting names; the spec does not enumerate them, so
representative names are used. -/
def REALM_PERMISSION_GROUP_SETTINGS : List String :=
  ["create_multiuse_invite_group", "can_create_public_channel_group"]

/-- Modelled from the spec: sub-schema `AllowMessageEditingData` for the
message-editing settings branch of a dict-shaped realm update. -/
def AllowMessageEditingData : Model :=
  ⟨[("allow_message_editing", .tBool, true)]⟩

/-- Modelled from the spec: sub-schema `MessageContentEditLimitSecondsData`
for the edit-time-limit branch. -/
def MessageContentEditLimitSecondsData : Model :=
  ⟨[("message_content_edit_limit_seconds", .tOptional .tInt, true)]⟩

/-- Modelled from the spec: sub-schema `AuthenticationData` for the
authentication-methods branch. -/
def AuthenticationData : Model :=
  ⟨[("authentication_methods", .tDict, true)]⟩

/-- Modelled from the spec: sub-schema `GroupSettingUpdateData` for the
permission-group settings branch: each known group-setting name is an
optional field holding an integer or a group-members mapping. -/
def GroupSettingUpdateData : Model :=
  ⟨REALM_PERMISSION_GROUP_SETTINGS.map (fun s => (s, .tUnion .tInt .tDict, false))⟩

/-- Modelled from the spec: sub-schema `PlanTypeData` for the plan-type
branch. -/
def PlanTypeData : Model :=
  ⟨[("plan_type", .tInt, true),
    ("upload_quota_mib", .tOptional .tInt, false),
    ("max_invites", .tInt, false)]⟩

/-- Modelled from the spec: sub-schema `RealmTopicsPolicyData` for the
topics-policy branch. -/
def RealmTopicsPolicyData : Model :=
  ⟨[("topics_policy", .tStr, true)]⟩

/-- Modelled from the spec: fixed sub-schema `IconData` for
`property == "icon"`. -/
def IconData : Model :=
  ⟨[("icon_url", .tStr, true), ("icon_source", .tStr, true)]⟩

/-- Modelled from the spec: fixed sub-schema `LogoData` for
`property == "logo"`. -/
def LogoData : Model :=
  ⟨[("logo_url", .tStr, true), ("logo_source", .tStr, true)]⟩

/-- Modelled from the spec: fixed sub-schema `NightLogoData` for
`property == "night_logo"`. -/
def NightLogoData : Model :=
  ⟨[("night_logo_url", .tStr, true), ("night_logo_source", .tStr, true)]⟩

/-- Source `_check_delete_message = make_checker(EventDeleteMessage)`. -/
def base_check_delete_message : String → EventDict → Except CheckErr Unit :=
  make_checker EventDeleteMessage

/-- Source `_check_muted_topics = make_checker(EventMutedTopics)`. -/
def base_check_muted_topics : String → EventDict → Except CheckErr Unit :=
  make_checker EventMutedTopics

/-- Source `_check_realm_bot_add = make_checker(EventRealmBotAdd)`. -/
def base_check_realm_bot_add : String → EventDict → Except CheckErr Unit :=
  make_checker EventRealmBotAdd

/-- Source `_check_realm_bot_update = make_checker(EventRealmBotUpdate)`. -/
def base_check_realm_bot_update : String → EventDict → Except CheckErr Unit :=
  make_checker EventRealmBotUpdate

/-- Source `_check_realm_update = make_checker(EventRealmUpdate)`. -/
def base_check_realm_update : String → EventDict → Except CheckErr Unit :=
  make_checker EventRealmUpdate

/-- Source `_check_realm_update_dict = make_checker(EventRealmUpdateDict)`. -/
def base_check_realm_update_dict : String → EventDict → Except CheckErr Unit :=
  make_checker EventRealmUpdateDict

/-- Source `_check_update_message = make_checker(EventUpdateMessage)`. -/
def base_check_update_message : String → EventDict → Except CheckErr Unit :=
  make_checker EventUpdateMessage

/-- The expected key set assembled by `check_delete_message`: the base
keys, plus `stream_id` and `topic` for stream messages, plus `message_id`
in legacy mode or `message_ids` otherwise.  Only meaningful for
`message_type` equal to `"stream"` or `"private"`; the checker rejects
anything else before reaching the key-set comparison. -/
def delete_message_keys (message_type : String) (is_legacy : Bool) : List String :=
  ["id", "type", "message_type"]
    ++ (if message_type = "stream" then ["stream_id", "topic"] else [])
    ++ (if is_legacy then ["message_id"] else ["message_ids"])

/-- Translation of `check_delete_message`. -/
def check_delete_message (var_name : String) (event : EventDict) (message_type : String)
    (num_message_ids : Int) (is_legacy : Bool) : Except CheckErr Unit :=
  match base_check_delete_message var_name event with
  | .error er => .error er
  | .ok _ =>
    match List.lookup "message_type" event with
    | none => .error (.keyError "message_type")
    | some mt =>
      if pyEqStr mt message_type then
        if message_type = "stream" ∨ message_type = "private" then
          if is_legacy then
            if num_message_ids = 1 then
              if strSetEq (keysOf event) (delete_message_keys message_type true) then .ok ()
              else .error (.assertionError "set(event.keys()) == keys")
            else .error (.assertionError "num_message_ids == 1")
          else
            match List.lookup "message_ids" event with
            | none => .error (.keyError "message_ids")
            | some (.vList ids) =>
              if num_message_ids = Int.ofNat ids.length then
                if strSetEq (keysOf event) (delete_message_keys message_type false) then .ok ()
                else .error (.assertionError "set(event.keys()) == keys")
              else .error (.assertionError "num_message_ids == len(message_ids)")
            | some _ => .error (.assertionError "isinstance(message_ids, list)")
        else .error (.assertionError "unexpected message_type")
      else .error (.assertionError "event message_type == message_type")

/-- The per-entry check of `check_muted_topics`: the entry, turned into a
tuple, must have element types exactly `[str, str, int]` (a comparison of
exact runtime types, so a boolean third component fails).  Entries that
are not sequences of three elements cannot satisfy the pattern. -/
def muted_topic_entry_ok : Value → Bool
  | .vList [a, b, c] =>
      py_type_name a == "str" && py_type_name b == "str" && py_type_name c == "int"
  | _ => false

/-- Translation of `check_muted_topics`. -/
def check_muted_topics (var_name : String) (event : EventDict) : Except CheckErr Unit :=
  match base_check_muted_topics var_name event with
  | .error er => .error er
  | .ok _ =>
    match List.lookup "muted_topics" event with
    | none => .error (.keyError "muted_topics")
    | some (.vList entries) =>
      if entries.all muted_topic_entry_ok then .ok ()
      else .error (.assertionError "list(map(type, muted_topic_tuple)) == [str, str, int]")
    | some _ => .error (.assertionError "isinstance(muted_topics, list)")

/-- Translation of `check_realm_bot_add`: dispatch on the bot's
`bot_type`, requiring an empty services list for the default bot, exactly
one services entry validating the matching sub-schema for
outgoing-webhook and embedded bots, and failing hard on any other
bot type. -/
def check_realm_bot_add (var_name : String) (event : EventDict) : Except CheckErr Unit :=
  match base_check_realm_bot_add var_name event with
  | .error er => .error er
  | .ok _ =>
    match List.lookup "bot" event with
    | none => .error (.keyError "bot")
    | some (.vDict bd) =>
      match List.lookup "bot_type" bd with
      | none => .error (.keyError "bot_type")
      | some bot_type =>
        match List.lookup "services" bd with
        | none => .error (.keyError "services")
        | some services =>
          if pyEqInt bot_type DEFAULT_BOT then
            if pyIsEmptyList services then .ok ()
            else .error (.assertionError "services == []")
          else if pyEqInt bot_type OUTGOING_WEBHOOK_BOT then
            match services with
            | .vList [.vDict sd] => validate_with_model sd BotServicesOutgoing
            | .vList [_] => .error (.typeMismatch "services[0]")
            | _ => .error (.assertionError "len(services) == 1")
          else if pyEqInt bot_type EMBEDDED_BOT then
            match services with
            | .vList [.vDict sd] => validate_with_model sd BotServicesEmbedded
            | .vList [_] => .error (.typeMismatch "services[0]")
            | _ => .error (.assertionError "len(services) == 1")
          else .error (.assertionError "Unknown bot_type")
    | some _ => .error (.assertionError "isinstance(bot, dict)")

/-- Translation of `check_realm_bot_update`: the nested bot object's key
set must equal the two-element set of `user_id` and the caller-specified
changed field. -/
def check_realm_bot_update (var_name : String) (event : EventDict) (field : String) :
    Except CheckErr Unit :=
  match base_check_realm_bot_update var_name event with
  | .error er => .error er
  | .ok _ =>
    match List.lookup "bot" event with
    | none => .error (.keyError "bot")
    | some (.vDict bd) =>
      if strSetEq (keysOf bd) ["user_id", field] then .ok ()
      else .error (.assertionError "set(bot.keys()) == \x7buser_id, field\x7d")
    | some _ => .error (.assertionError "isinstance(bot, dict)")

/-- The source's fixed list of property names that bypass the
`Realm.property_types` catalog in `check_realm_update` and are checked as
plain integers. -/
def realm_update_skip_properties : List String :=
  ["moderation_request_channel_id",
   "new_stream_announcements_stream_id",
   "signup_announcements_stream_id",
   "zulip_update_announcements_stream_id",
   "org_type"]

/-- Translation of `check_realm_update`, parameterized by the live
property-type catalog (the source reads `Realm.property_types`).  A
property in the skip list is checked with `isinstance(value, int)`; any
other property is looked up in the catalog (failing with KeyError when
absent), Enum-typed properties require a string naming a member, and
plain-typed properties are checked with `isinstance`. -/
def check_realm_update (property_types : PropertyCatalog) (var_name : String)
    (event : EventDict) (prop : String) : Except CheckErr Unit :=
  match base_check_realm_update var_name event with
  | .error er => .error er
  | .ok _ =>
    match List.lookup "property" event with
    | none => .error (.keyError "property")
    | some pv =>
      if pyEqStr pv prop then
        match List.lookup "value" event with
        | none => .error (.keyError "value")
        | some value =>
          if realm_update_skip_properties.contains prop then
            if py_isinstance_int value then .ok ()
            else .error (.assertionError "isinstance(value, int)")
          else
            match property_types prop with
            | none => .error (.keyError prop)
            | some (.pEnum members) =>
              match value with
              | .vStr s =>
                if members.contains s then .ok ()
                else .error (.keyError s)
              | _ => .error (.assertionError "isinstance(value, str)")
            | some pt =>
              if py_isinstance value pt then .ok ()
              else .error (.assertionError "isinstance(value, property_type)")
      else .error (.assertionError "prop == event property")

/-- Key-presence test `k in data` on a mapping. -/
def has_key (d : EventDict) (k : String) : Bool :=
  (List.lookup k d).isSome

/-- Translation of the sub-schema selection of `check_realm_update_dict`:
for `property == "default"` the first matching key of `data` (in the fixed
source order) chooses the sub-schema, with a hard failure when none
matches; `icon`, `logo` and `night_logo` choose fixed sub-schemas; any
other property is a hard failure.  For the three fixed properties the
`data` argument is not inspected. -/
def choose_realm_update_dict_sub_model (property : String) (data : EventDict) :
    Except CheckErr Model :=
  if property = "default" then
    if has_key data "allow_message_editing" then .ok AllowMessageEditingData
    else if has_key data "message_content_edit_limit_seconds" then
      .ok MessageContentEditLimitSecondsData
    else if has_key data "authentication_methods" then .ok AuthenticationData
    else if REALM_PERMISSION_GROUP_SETTINGS.any (fun s => has_key data s) then
      .ok GroupSettingUpdateData
    else if has_key data "plan_type" then .ok PlanTypeData
    else if has_key data "topics_policy" then .ok RealmTopicsPolicyData
    else .error (.assertionError "unhandled fields in data")
  else if property = "icon" then .ok IconData
  else if property = "logo" then .ok LogoData
  else if property = "night_logo" then .ok NightLogoData
  else .error (.assertionError "unhandled property")

/-- Translation of `check_realm_update_dict`: select the sub-schema from
the property and the keys of `data`, then validate `data` against it.  The
`default` branch asserts that `data` is a mapping before inspecting it;
for the fixed properties a non-mapping `data` fails inside the model
validation. -/
def check_realm_update_dict (var_name : String) (event : EventDict) : Except CheckErr Unit :=
  match base_check_realm_update_dict var_name event with
  | .error er => .error er
  | .ok _ =>
    match List.lookup "property" event with
    | none => .error (.keyError "property")
    | some pv =>
      match pv with
      | .vStr property =>
        if property = "default" then
          match List.lookup "data" event with
          | none => .error (.keyError "data")
          | some (.vDict data) =>
            match choose_realm_update_dict_sub_model property data with
            | .error er => .error er
            | .ok m => validate_with_model data m
          | some _ => .error (.assertionError "isinstance(data, dict)")
        else
          match choose_realm_update_dict_sub_model property [] with
          | .error er => .error er
          | .ok m =>
            match List.lookup "data" event with
            | none => .error (.keyError "data")
            | some (.vDict data) => validate_with_model data m
            | some _ => .error (.typeMismatch "data")
      | _ => .error (.assertionError "unhandled property")

/-- The expected key set assembled by `check_update_message` from its five
boolean flags: the fixed base keys extended by a fixed group of field
names for each flag that is set. -/
def update_message_expected_keys (is_stream_message has_content has_topic
    has_new_stream_id is_embedded_update_only : Bool) : List String :=
  ["id", "type", "user_id", "edit_timestamp", "message_id", "flags",
   "message_ids", "rendering_only"]
    ++ (if is_stream_message then ["stream_id", "stream_name"] else [])
    ++ (if has_content then
          ["is_me_message", "orig_content", "orig_rendered_content",
           "content", "rendered_content"]
        else [])
    ++ (if has_topic then ["topic_links", ORIG_TOPIC, TOPIC_NAME, "propagate_mode"] else [])
    ++ (if has_new_stream_id then ["new_stream_id", ORIG_TOPIC, "propagate_mode"] else [])
    ++ (if is_embedded_update_only then ["content", "rendered_content"] else [])

/-- Translation of `check_update_message`: after the base schema check,
`user_id` must be None exactly in the embedded-update-only case (an
`isinstance(..., int)` check otherwise), `rendering_only` must equal the
embedded flag, and the event's key set must equal the assembled expected
set exactly. -/
def check_update_message (var_name : String) (event : EventDict)
    (is_stream_message has_content has_topic has_new_stream_id
     is_embedded_update_only : Bool) : Except CheckErr Unit :=
  match base_check_update_message var_name event with
  | .error er => .error er
  | .ok _ =>
    match List.lookup "user_id" event with
    | none => .error (.keyError "user_id")
    | some u =>
      if is_embedded_update_only then
        match u with
        | .vNone =>
          match List.lookup "rendering_only" event with
          | none => .error (.keyError "rendering_only")
          | some r =>
            if pyEqBool r is_embedded_update_only then
              if strSetEq (keysOf event)
                  (update_message_expected_keys is_stream_message has_content
                    has_topic has_new_stream_id is_embedded_update_only) then .ok ()
              else .error (.assertionError "expected_keys == actual_keys")
            else .error (.assertionError "rendering_only == is_embedded_update_only")
        | _ => .error (.assertionError "user_id is None")
      else
        if py_isinstance_int u then
          match List.lookup "rendering_only" event with
          | none => .error (.keyError "rendering_only")
          | some r =>
            if pyEqBool r is_embedded_update_only then
              if strSetEq (keysOf event)
                  (update_message_expected_keys is_stream_message has_content
                    has_topic has_new_stream_id is_embedded_update_only) then .ok ()
              else .error (.assertionError "expected_keys == actual_keys")
            else .error (.assertionError "rendering_only == is_embedded_update_only")
        else .error (.assertionError "isinstance(user_id, int)")

/-- A scalar realm-update event for a given property and value. -/
def realm_update_event (p : String) (v : Value) : EventDict :=
  [("id", .vInt 1), ("type", .vStr "realm"), ("op", .vStr "update"),
   ("property", .vStr p), ("value", v)]

/-- A delete-message event for a stream message in legacy single-id
mode. -/
def delete_stream_legacy_event : EventDict :=
  [("id", .vInt 1), ("type", .vStr "delete_message"), ("message_type", .vStr "stream"),
   ("stream_id", .vInt 5), ("topic", .vStr "lunch"), ("message_id", .vInt 7)]

/-- A conformant services entry for an outgoing-webhook bot. -/
def outgoing_service_entry : EventDict :=
  [("base_url", .vStr "https://hostname.example.com/bots/followup"),
   ("interface", .vInt 1), ("token", .vStr "abcdef")]

/-- A realm-bot-add event with the given bot type code and services
value. -/
def realm_bot_add_event (bt : Int) (sv : Value) : EventDict :=
  [("id", .vInt 1), ("type", .vStr "realm_bot"), ("op", .vStr "add"),
   ("bot", .vDict [("user_id", .vInt 10), ("bot_type", .vInt bt), ("services", sv)])]

/-- An update-message event in embedded-update-only shape: null user id,
rendering_only true, and exactly the base keys plus content and
rendered_content. -/
def update_message_embedded_event : EventDict :=
  [("id", .vInt 1), ("type", .vStr "update_message"), ("user_id", .vNone),
   ("edit_timestamp", .vInt 100), ("message_id", .vInt 7), ("flags", .vList []),
   ("message_ids", .vList [.vInt 7]), ("rendering_only", .vBool true),
   ("content", .vStr "raw"), ("rendered_content", .vStr "<p>raw</p>")]

/-- A dict-shaped realm-update event with the given property and data. -/
def realm_update_dict_event (p : String) (d : Value) : EventDict :=
  [("id", .vInt 1), ("type", .vStr "realm"), ("op", .vStr "update_dict"),
   ("property", .vStr p), ("data", d)]

/-- A muted-topics event carrying the given entries. -/
def muted_topics_event (entries : List Value) : EventDict :=
  [("id", .vInt 1), ("type", .vStr "muted_topics"), ("muted_topics", .vList entries)]

/-- A realm-bot-update event whose nested bot object carries only the
`user_id` key. -/
def realm_bot_update_user_id_event : EventDict :=
  [("id", .vInt 1), ("type", .vStr "realm_bot"), ("op", .vStr "update"),
   ("bot", .vDict [("user_id", .vInt 10)])]

/-- Substitution of a field's value in an event mapping: bind `f` to `v`
and keep every other binding. -/
def dict_set (d : EventDict) (f : String) (v : Value) : EventDict :=
  (f, v) :: d.filter (fun p => p.1 != f)

/-- The declared type of a field in a model (first declaration wins). -/
def field_type_of (m : Model) (f : String) : Option FieldType :=
  (m.fields.find? (fun fd => fd.1 == f)).map (fun fd => fd.2.1)

/-- Modelled from the spec: a small representative property-type catalog
in the shape of `Realm.property_types` (owned by the data-model layer,
not among the given sources), with one boolean-typed, one string-typed
and one Enum-typed property. -/
def sample_property_catalog : PropertyCatalog := fun p =>
  if p = "invite_required" then some .pBool
  else if p = "name" then some .pStr
  else if p = "org_join_restrictions" then some (.pEnum ["no_restrictions", "only_domains"])
  else none

/-- C3: check_delete_message succeeds only when the event's key set is
exactly the base keys plus the stream keys when message_type is "stream"
(and nothing extra when it is "private"), plus message_id in legacy mode
(where num_message_ids must equal 1) or message_ids otherwise (whose list
length must equal num_message_ids); any other message_type is rejected. -/
theorem check_delete_message_key_set :
    ∀ (v : String) (e : EventDict) (mt : String) (n : Int) (lg : Bool),
      check_delete_message v e mt n lg = .ok () →
      (mt = "stream" ∨ mt = "private")
      ∧ strSetEq (keysOf e) (delete_message_keys mt lg) = true
      ∧ (lg = true → n = 1)
      ∧ (lg = false → ∃ ids, List.lookup "message_ids" e = some (.vList ids)
          ∧ n = Int.ofNat ids.length) := by
  intro v e mt n lg h
  unfold check_delete_message at h
  repeat' split at h
  all_goals try exact Except.noConfusion h
  · rename_i hpy hor hleg hn hkeys
    subst hleg
    exact ⟨hor, hkeys, fun _ => hn, fun hlf => absurd hlf (by simp)⟩
  · rename_i hpy hor hnleg xopt ids hids hn hkeys
    have hlf : lg = false := by simpa using hnleg
    subst hlf
    exact ⟨hor, hkeys, fun hlt => absurd hlt (by simp), fun _ => ⟨ids, hids, hn⟩⟩

/-- Witness for C3: a conformant stream-message legacy deletion event
satisfies the checker, and the necessary conditions hold for it. -/
theorem check_delete_message_key_set_witness :
    check_delete_message "delete_message" delete_stream_legacy_event "stream" 1 true = .ok ()
    ∧ (("stream" = "stream" ∨ "stream" = "private")
      ∧ strSetEq (keysOf delete_stream_legacy_event) (delete_message_keys "stream" true) = true
      ∧ (true = true → (1 : Int) = 1)
      ∧ (true = false → ∃ ids,
          List.lookup "message_ids" delete_stream_legacy_event = some (.vList ids)
          ∧ (1 : Int) = Int.ofNat ids.length)) :=
  ⟨by decide,
   check_delete_message_key_set "delete_message" delete_stream_legacy_event "stream" 1 true
     (by decide)⟩

deriving instance DecidableEq for FieldType

deriving instance DecidableEq for Model

lemma validateFields_sound :
    ∀ (fs : List (String × FieldType × Bool)) (d : EventDict) (f : String) (t : FieldType)
      (req : Bool) (v : Value),
      validateFields d fs = .ok () → (f, t, req) ∈ fs → List.lookup f d = some v →
      matchesType t v = true := by
  intro fs
  induction fs with
  | nil =>
    intro d f t req v h hmem hv
    exact absurd hmem (List.not_mem_nil _)
  | cons hd tl ih =>
    intro d f t req v h hmem hv
    obtain ⟨name, ty, rq⟩ := hd
    unfold validateFields at h
    rcases List.mem_cons.mp hmem with heq | hmem2
    · obtain ⟨h1, h2, h3⟩ : f = name ∧ t = ty ∧ req = rq := by
        simpa [Prod.ext_iff] using heq
      subst h1; subst h2; subst h3
      rw [hv] at h
      split at h
      · rename_i heq2
        exact Option.noConfusion heq2
      · rename_i w heq2
        have hw : v = w := Option.some.inj heq2
        subst hw
        split at h
        · assumption
        · exact Except.noConfusion h
    · split at h
      · split at h
        · exact Except.noConfusion h
        · exact ih d f t req v h hmem2 hv
      · split at h
        · exact ih d f t req v h hmem2 hv
        · exact Except.noConfusion h

lemma validate_with_model_ok_fields {d : EventDict} {m : Model} :
    validate_with_model d m = .ok () → validateFields d m.fields = .ok () := by
  intro h
  unfold validate_with_model at h
  split at h
  · exact h
  · exact Except.noConfusion h

lemma validate_with_model_ok_extra {d : EventDict} {m : Model} :
    validate_with_model d m = .ok () → extra_fields d m = [] := by
  intro h
  unfold validate_with_model at h
  split at h
  · rename_i he
    exact List.isEmpty_iff.mp he
  · exact Except.noConfusion h

lemma matchesType_optional_int_cases {u : Value} :
    matchesType (.tOptional .tInt) u = true → u = .vNone ∨ ∃ n, u = .vInt n := by
  cases u <;> simp [matchesType]

lemma py_isinstance_int_cases {u : Value} :
    py_isinstance_int u = true → (∃ n, u = .vInt n) ∨ ∃ b, u = .vBool b := by
  cases u <;> simp [py_isinstance_int]

/-- C5: check_update_message succeeds only when the event's key set
exactly equals the base set extended by the fixed field groups of the set
flags, and user_id is None exactly when is_embedded_update_only is true
(an integer otherwise); in particular an embedded-only update with a
non-null user_id fails, and any extra key fails the exact key-set
equality. -/
theorem check_update_message_key_set :
    ∀ (v : String) (e : EventDict) (f1 f2 f3 f4 f5 : Bool),
      check_update_message v e f1 f2 f3 f4 f5 = .ok () →
      strSetEq (keysOf e) (update_message_expected_keys f1 f2 f3 f4 f5) = true
      ∧ (f5 = true → List.lookup "user_id" e = some .vNone)
      ∧ (f5 = false → ∃ n : Int, List.lookup "user_id" e = some (.vInt n)) := by
  intro v e f1 f2 f3 f4 f5 h
  unfold check_update_message at h
  cases hb : base_check_update_message v e with
  | error er =>
    rw [hb] at h
    exact Except.noConfusion h
  | ok u =>
    rw [hb] at h
    have hbase2 : validate_with_model e EventUpdateMessage = .ok () := by
      cases u
      exact hb
    repeat' split at h
    all_goals try exact Except.noConfusion h
    · rename_i hemb vu hu xr vr hr hpy hkeys
      exact ⟨hkeys, fun _ => hu, fun hf => absurd (hf ▸ hemb) (by simp)⟩
    · rename_i vu hu hnemb hpyint xr vr hr hpy hkeys
      have hf5 : f5 = false := by simpa using hnemb
      have hm := validateFields_sound EventUpdateMessage.fields e "user_id"
        (.tOptional .tInt) true vu (validate_with_model_ok_fields hbase2) (by decide) hu
      rcases matchesType_optional_int_cases hm with hnone | ⟨n, hn⟩
      · rw [hnone] at hpyint
        simp [py_isinstance_int] at hpyint
      · exact ⟨hkeys, fun ht => absurd (hf5 ▸ ht) (by simp), fun _ => ⟨n, hn ▸ hu⟩⟩

/-- Witness for C5: an embedded-update-only event with null user_id and
exactly the embedded-required key set succeeds, and the necessary
conditions hold for it. -/
theorem check_update_message_key_set_witness :
    check_update_message "update_message" update_message_embedded_event
      false false false false true = .ok ()
    ∧ (strSetEq (keysOf update_message_embedded_event)
        (update_message_expected_keys false false false false true) = true
      ∧ (true = true →
          List.lookup "user_id" update_message_embedded_event = some .vNone)
      ∧ (true = false → ∃ n : Int,
          List.lookup "user_id" update_message_embedded_event = some (.vInt n))) :=
  ⟨by decide,
   check_update_message_key_set "update_message" update_message_embedded_event
     false false false false true (by decide)⟩

lemma muted_topic_entry_ok_iff (x : Value) :
    muted_topic_entry_ok x = true ↔ ∃ a b n, x = .vList [.vStr a, .vStr b, .vInt n] := by
  cases x with
  | vNone => simp [muted_topic_entry_ok]
  | vBool b => simp [muted_topic_entry_ok]
  | vInt n => simp [muted_topic_entry_ok]
  | vStr s => simp [muted_topic_entry_ok]
  | vDict d => simp [muted_topic_entry_ok]
  | vList l =>
    match l with
    | [] => simp [muted_topic_entry_ok]
    | [a] => simp [muted_topic_entry_ok]
    | [a, b] => simp [muted_topic_entry_ok]
    | [a, b, c] =>
      cases a <;> cases b <;> cases c <;> simp [muted_topic_entry_ok, py_type_name]
    | a :: b :: c :: d :: rest => simp [muted_topic_entry_ok]

/-- C7: given the base schema holds, check_muted_topics succeeds exactly
when every entry of muted_topics is a 3-element sequence of exact types
(string, string, integer); the entry ("general", "topic", 123) succeeds
and ("general", "topic", "not-an-int") fails. -/
theorem check_muted_topics_tuple_shape :
    (∀ (v : String) (e : EventDict) (entries : List Value),
      base_check_muted_topics v e = .ok () →
      List.lookup "muted_topics" e = some (.vList entries) →
      (check_muted_topics v e = .ok () ↔
        ∀ x ∈ entries, ∃ a b n, x = .vList [.vStr a, .vStr b, .vInt n]))
    ∧ check_muted_topics "muted_topics" (muted_topics_event
        [.vList [.vStr "general", .vStr "topic", .vInt 123]]) = .ok ()
    ∧ check_muted_topics "muted_topics" (muted_topics_event
        [.vList [.vStr "general", .vStr "topic", .vStr "not-an-int"]]) ≠ .ok () := by
  refine ⟨?_, by decide, by decide⟩
  intro v e entries hbase hlook
  unfold check_muted_topics
  simp only [hbase, hlook]
  constructor
  · intro h
    split at h
    · rename_i hall
      intro x hx
      exact (muted_topic_entry_ok_iff x).mp (List.all_eq_true.mp hall x hx)
    · exact absurd h (by simp)
  · intro hall
    have ha : entries.all muted_topic_entry_ok = true :=
      List.all_eq_true.mpr (fun x hx => (muted_topic_entry_ok_iff x).mpr (hall x hx))
    simp [ha]

/-- Witness for C7: the characterization applies to a concrete
muted-topics event with one well-shaped entry. -/
theorem check_muted_topics_tuple_shape_witness :
    base_check_muted_topics "muted_topics" (muted_topics_event
      [.vList [.vStr "general", .vStr "topic", .vInt 123]]) = .ok ()
    ∧ check_muted_topics "muted_topics" (muted_topics_event
        [.vList [.vStr "general", .vStr "topic", .vInt 123]]) = .ok () :=
  ⟨by decide,
   (check_muted_topics_tuple_shape.1 "muted_topics"
      (muted_topics_event [.vList [.vStr "general", .vStr "topic", .vInt 123]])
      [.vList [.vStr "general", .vStr "topic", .vInt 123]] (by decide) rfl).mpr
     (by
       intro x hx
       rw [List.mem_singleton] at hx
       subst hx
       exact ⟨"general", "topic", 123, rfl⟩)⟩

lemma pyIsEmptyList_eq {v : Value} : pyIsEmptyList v = true → v = .vList [] := by
  intro h
  cases v with
  | vList l =>
    cases l with
    | nil => rfl
    | cons a as => simp [pyIsEmptyList] at h
  | vNone => simp [pyIsEmptyList] at h
  | vBool b => simp [pyIsEmptyList] at h
  | vInt n => simp [pyIsEmptyList] at h
  | vStr s => simp [pyIsEmptyList] at h
  | vDict d => simp [pyIsEmptyList] at h

lemma pyEqInt_unique {v : Value} {a b : Int} :
    pyEqInt v a = true → pyEqInt v b = true → a = b := by
  intro h1 h2
  cases v with
  | vInt m =>
    simp [pyEqInt] at h1 h2
    omega
  | vBool c =>
    cases c <;> simp [pyEqInt] at h1 h2 <;> omega
  | vNone => simp [pyEqInt] at h1
  | vStr s => simp [pyEqInt] at h1
  | vList l => simp [pyEqInt] at h1
  | vDict d => simp [pyEqInt] at h1

/-- C4: check_realm_bot_add succeeds only with bot_type equal to one of
the three known enumerants; the default bot requires an empty services
list, and outgoing-webhook and embedded bots require exactly one services
entry validating the corresponding sub-schema — a conformant one-entry
list succeeds and a two-entry list fails, as does a non-empty list for the
default bot. -/
theorem check_realm_bot_add_services :
    (∀ (v : String) (e : EventDict) (bd : EventDict) (bt sv : Value),
      List.lookup "bot" e = some (.vDict bd) →
      List.lookup "bot_type" bd = some bt →
      List.lookup "services" bd = some sv →
      check_realm_bot_add v e = .ok () →
      (pyEqInt bt DEFAULT_BOT = true ∨ pyEqInt bt OUTGOING_WEBHOOK_BOT = true
        ∨ pyEqInt bt EMBEDDED_BOT = true)
      ∧ (pyEqInt bt DEFAULT_BOT = true → sv = .vList [])
      ∧ (pyEqInt bt OUTGOING_WEBHOOK_BOT = true →
          ∃ sd, sv = .vList [.vDict sd] ∧ validate_with_model sd BotServicesOutgoing = .ok ())
      ∧ (pyEqInt bt EMBEDDED_BOT = true →
          ∃ sd, sv = .vList [.vDict sd] ∧ validate_with_model sd BotServicesEmbedded = .ok ()))
    ∧ check_realm_bot_add "realm_bot" (realm_bot_add_event OUTGOING_WEBHOOK_BOT
        (.vList [.vDict outgoing_service_entry])) = .ok ()
    ∧ check_realm_bot_add "realm_bot" (realm_bot_add_event OUTGOING_WEBHOOK_BOT
        (.vList [.vDict outgoing_service_entry, .vDict outgoing_service_entry])) ≠ .ok ()
    ∧ check_realm_bot_add "realm_bot" (realm_bot_add_event DEFAULT_BOT
        (.vList [.vDict outgoing_service_entry])) ≠ .ok () := by
  refine ⟨?_, by decide, by decide, by decide⟩
  intro v e bd bt sv hbot hbt hsv h
  unfold check_realm_bot_add at h
  split at h
  · exact Except.noConfusion h
  · simp only [hbot, hbt, hsv] at h
    repeat' split at h
    all_goals try exact Except.noConfusion h
    · rename_i hd hempty
      exact ⟨Or.inl hd, fun _ => pyIsEmptyList_eq hempty,
        fun ho => absurd (pyEqInt_unique hd ho) (by decide),
        fun he => absurd (pyEqInt_unique hd he) (by decide)⟩
    · rename_i hnd ho sv2 sd
      exact ⟨Or.inr (Or.inl ho), fun hd2 => absurd (pyEqInt_unique hd2 ho) (by decide),
        fun _ => ⟨sd, rfl, h⟩,
        fun he => absurd (pyEqInt_unique ho he) (by decide)⟩
    · rename_i hnd hno he sv2 sd
      exact ⟨Or.inr (Or.inr he), fun hd2 => absurd (pyEqInt_unique hd2 he) (by decide),
        fun ho2 => absurd (pyEqInt_unique ho2 he) (by decide),
        fun _ => ⟨sd, rfl, h⟩⟩

/-- Witness for C4: the necessity direction applies to the conformant
outgoing-webhook event. -/
theorem check_realm_bot_add_services_witness :
    List.lookup "bot" (realm_bot_add_event OUTGOING_WEBHOOK_BOT
      (.vList [.vDict outgoing_service_entry]))
      = some (.vDict [("user_id", .vInt 10), ("bot_type", .vInt OUTGOING_WEBHOOK_BOT),
        ("services", .vList [.vDict outgoing_service_entry])])
    ∧ check_realm_bot_add "realm_bot" (realm_bot_add_event OUTGOING_WEBHOOK_BOT
        (.vList [.vDict outgoing_service_entry])) = .ok ()
    ∧ (pyEqInt (.vInt OUTGOING_WEBHOOK_BOT) DEFAULT_BOT = true
      ∨ pyEqInt (.vInt OUTGOING_WEBHOOK_BOT) OUTGOING_WEBHOOK_BOT = true
      ∨ pyEqInt (.vInt OUTGOING_WEBHOOK_BOT) EMBEDDED_BOT = true) :=
  ⟨rfl, by decide,
   (check_realm_bot_add_services.1 "realm_bot"
      (realm_bot_add_event OUTGOING_WEBHOOK_BOT (.vList [.vDict outgoing_service_entry]))
      [("user_id", .vInt 10), ("bot_type", .vInt OUTGOING_WEBHOOK_BOT),
       ("services", .vList [.vDict outgoing_service_entry])]
      (.vInt OUTGOING_WEBHOOK_BOT) (.vList [.vDict outgoing_service_entry])
      rfl rfl rfl (by decide)).1⟩

lemma strSetEq_iff {a b : List String} :
    strSetEq a b = true ↔ ∀ k, k ∈ a ↔ k ∈ b := by
  simp [strSetEq, List.all_eq_true, List.elem_iff]
  constructor
  · rintro ⟨h1, h2⟩ k
    exact ⟨fun hk => h1 k hk, fun hk => h2 k hk⟩
  · intro h
    exact ⟨fun k hk => (h k).mp hk, fun k hk => (h k).mpr hk⟩

/-- C10: with field "user_id", the required key set of the nested bot
object collapses to the singleton set, so check_realm_bot_update accepts a
bot object whose single key is user_id. -/
theorem check_realm_bot_update_user_id_only :
    ∀ (v : String) (e : EventDict) (bd : EventDict),
      base_check_realm_bot_update v e = .ok () →
      List.lookup "bot" e = some (.vDict bd) →
      strSetEq (keysOf bd) ["user_id"] = true →
      check_realm_bot_update v e "user_id" = .ok () := by
  intro v e bd hbase hbot hkeys
  unfold check_realm_bot_update
  simp only [hbase, hbot]
  have h2 : strSetEq (keysOf bd) ["user_id", "user_id"] = true := by
    rw [strSetEq_iff] at hkeys ⊢
    intro k
    rw [hkeys k]
    simp
  simp [h2]

/-- Witness for C10: a concrete realm-bot-update event whose bot object
has the single key user_id passes the checker with field "user_id". -/
theorem check_realm_bot_update_user_id_only_witness :
    base_check_realm_bot_update "realm_bot" realm_bot_update_user_id_event = .ok ()
    ∧ List.lookup "bot" realm_bot_update_user_id_event = some (.vDict [("user_id", .vInt 10)])
    ∧ strSetEq (keysOf [("user_id", Value.vInt 10)]) ["user_id"] = true
    ∧ check_realm_bot_update "realm_bot" realm_bot_update_user_id_event "user_id" = .ok () :=
  ⟨by decide, rfl, by decide,
   check_realm_bot_update_user_id_only "realm_bot" realm_bot_update_user_id_event
     [("user_id", .vInt 10)] (by decide) rfl (by decide)⟩

/-- C2 (amended): exactly five property names bypass the live
property-type catalog in check_realm_update and are checked as plain
integers; every other property has its value checked against the catalog,
with Enum-typed properties requiring a string naming a legal member. -/
theorem check_realm_update_skip_and_catalog :
    realm_update_skip_properties.length = 5
    ∧ (∀ (cat : PropertyCatalog) (v : String) (e : EventDict) (prop : String) (value : Value),
      base_check_realm_update v e = .ok () →
      List.lookup "property" e = some (.vStr prop) →
      List.lookup "value" e = some value →
      (check_realm_update cat v e prop = .ok () ↔
        (if realm_update_skip_properties.contains prop = true then
          py_isinstance_int value = true
        else
          match cat prop with
          | none => False
          | some (.pEnum members) => ∃ s, value = .vStr s ∧ members.contains s = true
          | some pt => py_isinstance value pt = true))) := by
  refine ⟨rfl, ?_⟩
  intro cat v e prop value hbase hprop hvalue
  unfold check_realm_update
  simp only [hbase, hprop, hvalue, pyEqStr, beq_self_eq_true, if_true]
  by_cases hskip : realm_update_skip_properties.contains prop = true
  · simp only [hskip, if_true]
    by_cases hint : py_isinstance_int value = true
    · simp [hint]
    · simp [hint]
  · simp only [hskip, if_false]
    cases hcat : cat prop with
    | none => simp
    | some pt =>
      cases pt with
      | pBool => by_cases hi : py_isinstance value .pBool = true <;> simp [hi]
      | pInt => by_cases hi : py_isinstance value .pInt = true <;> simp [hi]
      | pStr => by_cases hi : py_isinstance value .pStr = true <;> simp [hi]
      | pEnum members =>
        cases value with
        | vStr s =>
          by_cases hmem : members.contains s = true
          · simp [hmem]
          · simp [hmem]
        | vNone => simp
        | vBool b => simp
        | vInt n => simp
        | vList l => simp
        | vDict d => simp

/-- Counterexample to C2 as stated: the bypass list has five entries, not
four — each of the five property names passes check_realm_update with an
integer value under the empty catalog (so none of them consults the
catalog), while a catalog-backed property does not. -/
theorem check_realm_update_four_skip_counterexample :
    realm_update_skip_properties.length = 5
    ∧ check_realm_update empty_property_catalog "realm_update"
        (realm_update_event "moderation_request_channel_id" (.vInt 7))
        "moderation_request_channel_id" = .ok ()
    ∧ check_realm_update empty_property_catalog "realm_update"
        (realm_update_event "new_stream_announcements_stream_id" (.vInt 7))
        "new_stream_announcements_stream_id" = .ok ()
    ∧ check_realm_update empty_property_catalog "realm_update"
        (realm_update_event "signup_announcements_stream_id" (.vInt 7))
        "signup_announcements_stream_id" = .ok ()
    ∧ check_realm_update empty_property_catalog "realm_update"
        (realm_update_event "zulip_update_announcements_stream_id" (.vInt 7))
        "zulip_update_announcements_stream_id" = .ok ()
    ∧ check_realm_update empty_property_catalog "realm_update"
        (realm_update_event "org_type" (.vInt 7)) "org_type" = .ok ()
    ∧ check_realm_update empty_property_catalog "realm_update"
        (realm_update_event "description" (.vInt 7)) "description" ≠ .ok () :=
  ⟨rfl, by decide, by decide, by decide, by decide, by decide, by decide⟩

/-- Witness for C2: the characterization applies to a boolean-typed
catalog property with a boolean value. -/
theorem check_realm_update_skip_and_catalog_witness :
    base_check_realm_update "realm_update"
      (realm_update_event "invite_required" (.vBool true)) = .ok ()
    ∧ check_realm_update sample_property_catalog "realm_update"
        (realm_update_event "invite_required" (.vBool true)) "invite_required" = .ok () :=
  ⟨by decide,
   (check_realm_update_skip_and_catalog.2 sample_property_catalog "realm_update"
      (realm_update_event "invite_required" (.vBool true)) "invite_required" (.vBool true)
      (by decide) rfl rfl).mpr
     (by simp [realm_update_skip_properties, sample_property_catalog, py_isinstance])⟩

lemma lookup_filter_ne {d : EventDict} {g f : String} (h : (g == f) = false) :
    List.lookup g (d.filter (fun p => p.1 != f)) = List.lookup g d := by
  induction d with
  | nil => rfl
  | cons hd tl ih =>
    obtain ⟨k, w⟩ := hd
    by_cases hk : (k == f) = true
    · have hkf : k = f := eq_of_beq hk
      subst hkf
      have hg : (g == k) = false := h
      simp [List.filter_cons, List.lookup, hg, ih]
    · have hne : k ≠ f := by simpa using hk
      by_cases hg : (g == k) = true
      · simp [List.filter_cons, List.lookup, hne, hg]
      · have hg2 : (g == k) = false := by simpa using hg
        simp [List.filter_cons, List.lookup, hne, hg2, ih]

lemma lookup_dict_set_self (d : EventDict) (f : String) (v : Value) :
    List.lookup f (dict_set d f v) = some v := by
  simp [dict_set, List.lookup]

lemma lookup_dict_set_ne {d : EventDict} {f : String} {v : Value} {g : String}
    (h : (g == f) = false) :
    List.lookup g (dict_set d f v) = List.lookup g d := by
  rw [dict_set]
  rw [List.lookup]
  rw [h]
  exact lookup_filter_ne h

lemma validateFields_dict_set :
    ∀ (fs : List (String × FieldType × Bool)) (d : EventDict) (f : String) (t : FieldType)
      (w : Value),
      validateFields d fs = .ok () →
      (fs.find? (fun fd => fd.1 == f)).map (fun fd => fd.2.1) = some t →
      matchesType t w = false →
      validateFields (dict_set d f w) fs = .error (.typeMismatch f) := by
  intro fs
  induction fs with
  | nil =>
    intro d f t w h hfind hmt
    simp [List.find?] at hfind
  | cons hd tl ih =>
    intro d f t w h hfind hmt
    obtain ⟨name, ty, rq⟩ := hd
    by_cases hname : (name == f) = true
    · have hnf : name = f := eq_of_beq hname
      subst hnf
      have ht : ty = t := by
        simp [List.find?, hname] at hfind
        exact hfind
      subst ht
      unfold validateFields
      rw [lookup_dict_set_self]
      simp [hmt]
    · have hname2 : (name == f) = false := by simpa using hname
      have hfind2 : (tl.find? (fun fd => fd.1 == f)).map (fun fd => fd.2.1) = some t := by
        simpa [List.find?, hname2] using hfind
      unfold validateFields at h ⊢
      rw [lookup_dict_set_ne hname2]
      split at h
      · rename_i heq
        split at h
        · exact Except.noConfusion h
        · rename_i hrq
          simp only [if_neg hrq]
          exact ih d f t w h hfind2 hmt
      · rename_i u heq
        split at h
        · rename_i hmty
          simp only [if_pos hmty]
          exact ih d f t w h hfind2 hmt
        · exact Except.noConfusion h

lemma contains_of_field_type {m : Model} {f : String} {t : FieldType} :
    field_type_of m f = some t → (allowed_fields m).contains f = true := by
  intro h
  unfold field_type_of at h
  rcases Option.map_eq_some'.mp h with ⟨fd, hfd, hty⟩
  have hmem := List.mem_of_find?_eq_some hfd
  have hp := List.find?_some hfd
  have hf : fd.1 = f := eq_of_beq hp
  have : f ∈ allowed_fields m := by
    unfold allowed_fields
    exact hf ▸ List.mem_map_of_mem (fun x => x.1) hmem
  exact List.elem_iff.mpr this

lemma keys_dict_set_subset {d : EventDict} {f : String} {w : Value} :
    ∀ k ∈ keysOf (dict_set d f w), k = f ∨ k ∈ keysOf d := by
  intro k hk
  unfold keysOf dict_set at hk
  rcases List.mem_map.mp hk with ⟨p, hp, hpk⟩
  rcases List.mem_cons.mp hp with heq | hmem
  · left
    rw [← hpk, heq]
  · right
    have hm : p.1 ∈ keysOf d := List.mem_map_of_mem (fun x => x.1) (List.mem_of_mem_filter hmem)
    rwa [hpk] at hm

lemma extra_fields_dict_set {d : EventDict} {m : Model} {f : String} {w : Value}
    (he : extra_fields d m = []) (hf : (allowed_fields m).contains f = true) :
    extra_fields (dict_set d f w) m = [] := by
  unfold extra_fields at he ⊢
  rw [List.filter_eq_nil_iff] at he ⊢
  intro k hk
  rcases keys_dict_set_subset k hk with hkf | hk2
  · subst hkf
    simp [List.elem_iff.mp hf]
  · exact he k hk2

/-- C1 (amended): substituting a value of a non-matching type — in
particular a boolean where an integer is declared — into an event that
validates makes validate_with_model fail with a type-mismatch error naming
the field; check_realm_update itself, however, accepts a boolean for its
integer-coded properties, because the source language's isinstance treats
booleans as integers. -/
theorem validate_with_model_wrong_type_rejected :
    (∀ (m : Model) (d : EventDict) (f : String) (t : FieldType) (w : Value),
      validate_with_model d m = .ok () →
      field_type_of m f = some t →
      matchesType t w = false →
      validate_with_model (dict_set d f w) m = .error (.typeMismatch f))
    ∧ matchesType .tInt (.vBool true) = false
    ∧ check_realm_update empty_property_catalog "realm_update"
        (realm_update_event "org_type" (.vBool true)) "org_type" = .ok () := by
  refine ⟨?_, rfl, by decide⟩
  intro m d f t w hok hft hmt
  have hfields := validate_with_model_ok_fields hok
  have hextra := validate_with_model_ok_extra hok
  have hcontains := contains_of_field_type hft
  unfold field_type_of at hft
  unfold validate_with_model
  rw [extra_fields_dict_set hextra hcontains]
  simp only [List.isEmpty_nil, if_true]
  unfold model_validate_strict
  exact validateFields_dict_set m.fields d f t w hfields hft hmt

/-- Counterexample to C1 as stated: org_type is an integer-coded realm
property, yet check_realm_update accepts the boolean True as its value. -/
theorem check_realm_update_bool_for_int_counterexample :
    List.lookup "value" (realm_update_event "org_type" (.vBool true)) = some (.vBool true)
    ∧ "org_type" ∈ realm_update_skip_properties
    ∧ check_realm_update empty_property_catalog "realm_update"
        (realm_update_event "org_type" (.vBool true)) "org_type" = .ok () :=
  ⟨rfl, by decide, by decide⟩

/-- Witness for C1: substituting a boolean for the declared-integer id
field of a validating delete-message event yields the type-mismatch
error. -/
theorem validate_with_model_wrong_type_rejected_witness :
    validate_with_model delete_stream_legacy_event EventDeleteMessage = .ok ()
    ∧ field_type_of EventDeleteMessage "id" = some .tInt
    ∧ matchesType .tInt (.vBool true) = false
    ∧ validate_with_model (dict_set delete_stream_legacy_event "id" (.vBool true))
        EventDeleteMessage = .error (.typeMismatch "id") :=
  ⟨by decide, by decide, rfl,
   validate_with_model_wrong_type_rejected.1 EventDeleteMessage delete_stream_legacy_event
     "id" .tInt (.vBool true) (by decide) (by decide) rfl⟩

/-- Modelled from the spec: the explicit enumerated priority list for the
"default" branch of the dict-shaped realm update — a sub-schema is chosen
by the first predicate matching the keys of `data` (message-editing
settings, edit-time-limit, authentication methods, any known
permission-group setting name, plan type, topics policy, in that order). -/
def realm_update_dict_default_priority : List ((EventDict → Bool) × Model) :=
  [(fun d => has_key d "allow_message_editing", AllowMessageEditingData),
   (fun d => has_key d "message_content_edit_limit_seconds", MessageContentEditLimitSecondsData),
   (fun d => has_key d "authentication_methods", AuthenticationData),
   (fun d => REALM_PERMISSION_GROUP_SETTINGS.any (fun s => has_key d s), GroupSettingUpdateData),
   (fun d => has_key d "plan_type", PlanTypeData),
   (fun d => has_key d "topics_policy", RealmTopicsPolicyData)]

/-- The spec's description of the "default" sub-schema selection: first
matching entry of the fixed priority list wins, and no match is a hard
failure. -/
def choose_default_sub_model_spec (data : EventDict) : Except CheckErr Model :=
  match realm_update_dict_default_priority.find? (fun pm => pm.1 data) with
  | some pm => .ok pm.2
  | none => .error (.assertionError "unhandled fields in data")

lemma choose_default_eq (data : EventDict) :
    choose_realm_update_dict_sub_model "default" data = choose_default_sub_model_spec data := by
  unfold choose_realm_update_dict_sub_model choose_default_sub_model_spec
    realm_update_dict_default_priority
  by_cases h1 : has_key data "allow_message_editing" = true
  · simp [h1, List.find?]
  · simp only [Bool.not_eq_true] at h1
    by_cases h2 : has_key data "message_content_edit_limit_seconds" = true
    · simp [h1, h2, List.find?]
    · simp only [Bool.not_eq_true] at h2
      by_cases h3 : has_key data "authentication_methods" = true
      · simp [h1, h2, h3, List.find?]
      · simp only [Bool.not_eq_true] at h3
        by_cases h4 : REALM_PERMISSION_GROUP_SETTINGS.any (fun s => has_key data s) = true
        · simp [h1, h2, h3, h4, List.find?]
        · simp only [Bool.not_eq_true] at h4
          by_cases h5 : has_key data "plan_type" = true
          · simp [h1, h2, h3, h4, h5, List.find?]
          · simp only [Bool.not_eq_true] at h5
            by_cases h6 : has_key data "topics_policy" = true
            · simp [h1, h2, h3, h4, h5, h6, List.find?]
            · simp only [Bool.not_eq_true] at h6
              simp [h1, h2, h3, h4, h5, h6, List.find?]

/-- C6: in check_realm_update_dict the "default" sub-schema is chosen by
the first matching key in the fixed priority order (message-editing,
edit-time-limit, authentication methods, permission-group setting names,
plan type, topics policy); icon, logo and night_logo select fixed
sub-schemas; a "default" event whose data has no recognized key, or any
other property value, is a hard failure. -/
theorem check_realm_update_dict_dispatch :
    (∀ data : EventDict, choose_realm_update_dict_sub_model "default" data
        = choose_default_sub_model_spec data)
    ∧ (∀ data : EventDict, choose_realm_update_dict_sub_model "icon" data = .ok IconData)
    ∧ (∀ data : EventDict, choose_realm_update_dict_sub_model "logo" data = .ok LogoData)
    ∧ (∀ data : EventDict,
        choose_realm_update_dict_sub_model "night_logo" data = .ok NightLogoData)
    ∧ (∀ (v : String) (e : EventDict) (prop : String),
        List.lookup "property" e = some (.vStr prop) →
        prop ≠ "default" → prop ≠ "icon" → prop ≠ "logo" → prop ≠ "night_logo" →
        check_realm_update_dict v e ≠ .ok ())
    ∧ (∀ (v : String) (e : EventDict) (data : EventDict),
        List.lookup "property" e = some (.vStr "default") →
        List.lookup "data" e = some (.vDict data) →
        choose_default_sub_model_spec data
          = .error (.assertionError "unhandled fields in data") →
        check_realm_update_dict v e ≠ .ok ()) := by
  refine ⟨choose_default_eq, fun data => rfl, fun data => rfl, fun data => rfl, ?_, ?_⟩
  · intro v e prop hprop hd hi hl hn hcheck
    unfold check_realm_update_dict at hcheck
    split at hcheck
    · exact Except.noConfusion hcheck
    · simp only [hprop] at hcheck
      simp [choose_realm_update_dict_sub_model, hd, hi, hl, hn] at hcheck
  · intro v e data hprop hdata hspec hcheck
    unfold check_realm_update_dict at hcheck
    split at hcheck
    · exact Except.noConfusion hcheck
    · simp only [hprop, hdata] at hcheck
      rw [choose_default_eq data, hspec] at hcheck
      simp at hcheck

/-- Witness for C6: an unrecognized property is rejected. -/
theorem check_realm_update_dict_dispatch_witness :
    List.lookup "property" (realm_update_dict_event "bogus" (.vDict []))
      = some (.vStr "bogus")
    ∧ check_realm_update_dict "realm_update_dict" (realm_update_dict_event "bogus" (.vDict []))
      ≠ .ok () :=
  ⟨rfl, check_realm_update_dict_dispatch.2.2.2.2.1 "realm_update_dict"
    (realm_update_dict_event "bogus" (.vDict [])) "bogus" rfl
    (by decide) (by decide) (by decide) (by decide)⟩

/-- C9: validate_with_model performs the unknown-field check before any
type validation, so an event with both an undeclared key and a
type-mismatched declared field always fails with the extra-fields
ValueError naming the undeclared keys, never the type-mismatch error. -/
theorem validate_with_model_extra_fields_first :
    ∀ (d : EventDict) (m : Model) (k f : String) (t : FieldType) (w : Value),
      k ∈ keysOf d → (allowed_fields m).contains k = false →
      field_type_of m f = some t → List.lookup f d = some w → matchesType t w = false →
      validate_with_model d m = .error (.extraFields (extra_fields d m)) := by
  intro d m k f t w hk hkc hft hfw hmt
  unfold validate_with_model
  have hne : (extra_fields d m).isEmpty = false := by
    have hkm : k ∈ extra_fields d m := by
      unfold extra_fields
      rw [List.mem_filter]
      have hnotmem : k ∉ allowed_fields m := fun hmem =>
        absurd (List.elem_iff.mpr hmem)
          (by show ¬(allowed_fields m).contains k = true
              rw [hkc]
              exact Bool.false_ne_true)
      exact ⟨hk, by simpa using hnotmem⟩
    cases hxf : extra_fields d m with
    | nil =>
      rw [hxf] at hkm
      exact absurd hkm (List.not_mem_nil k)
    | cons a as => rfl
  simp [hne]

/-- Witness for C9: a realm-update-shaped mapping with an undeclared
`bogus` key and a string where the integer id is declared fails with the
extra-fields error naming `bogus`. -/
theorem validate_with_model_extra_fields_first_witness :
    "bogus" ∈ keysOf [("id", Value.vStr "no"), ("bogus", Value.vNone)]
    ∧ (allowed_fields EventRealmUpdate).contains "bogus" = false
    ∧ field_type_of EventRealmUpdate "id" = some .tInt
    ∧ List.lookup "id" [("id", Value.vStr "no"), ("bogus", Value.vNone)]
      = some (Value.vStr "no")
    ∧ matchesType .tInt (Value.vStr "no") = false
    ∧ extra_fields [("id", Value.vStr "no"), ("bogus", Value.vNone)] EventRealmUpdate
      = ["bogus"]
    ∧ validate_with_model [("id", Value.vStr "no"), ("bogus", Value.vNone)] EventRealmUpdate
      = .error (.extraFields
          (extra_fields [("id", Value.vStr "no"), ("bogus", Value.vNone)] EventRealmUpdate)) :=
  ⟨by decide, by decide, by decide, rfl, rfl, rfl,
   validate_with_model_extra_fields_first
     [("id", Value.vStr "no"), ("bogus", Value.vNone)] EventRealmUpdate
     "bogus" "id" .tInt (Value.vStr "no")
     (by decide) (by decide) (by decide) rfl rfl⟩

/-- The checkers defined in this development with the uniform
(label, event) signature produced by make_checker. -/
def all_base_checkers : List (String → EventDict → Except CheckErr Unit) :=
  [base_check_delete_message, base_check_muted_topics, base_check_realm_bot_add,
   base_check_realm_bot_update, base_check_realm_update, base_check_realm_update_dict,
   base_check_update_message]

/-- Two successive invocations of a checker on the same label and event:
the second call receives the identical event mapping, which the first call
cannot have modified (no checker writes to the event). -/
def invoke_twice (c : String → EventDict → Except CheckErr Unit) (l : String) (e : EventDict) :
    Except CheckErr Unit × Except CheckErr Unit := (c l e, c l e)

/-- C8: every checker is deterministic and stateless — invoking it twice
with the same label and event yields the same outcome both times, and the
outcome does not depend on the label (which the source uses only in the
failure printout); this holds for each make_checker-produced base checker
and for each semantic checker at all parameter values. -/
theorem checkers_deterministic :
    (∀ c ∈ all_base_checkers, ∀ (l1 l2 : String) (e : EventDict),
      (invoke_twice c l1 e).1 = (invoke_twice c l1 e).2 ∧ c l1 e = c l2 e)
    ∧ (∀ (l1 l2 : String) (e : EventDict) (mt : String) (n : Int) (lg : Bool),
        check_delete_message l1 e mt n lg = check_delete_message l2 e mt n lg)
    ∧ (∀ (l1 l2 : String) (e : EventDict), check_muted_topics l1 e = check_muted_topics l2 e)
    ∧ (∀ (l1 l2 : String) (e : EventDict), check_realm_bot_add l1 e = check_realm_bot_add l2 e)
    ∧ (∀ (l1 l2 : String) (e : EventDict) (fl : String),
        check_realm_bot_update l1 e fl = check_realm_bot_update l2 e fl)
    ∧ (∀ (cat : PropertyCatalog) (l1 l2 : String) (e : EventDict) (p : String),
        check_realm_update cat l1 e p = check_realm_update cat l2 e p)
    ∧ (∀ (l1 l2 : String) (e : EventDict),
        check_realm_update_dict l1 e = check_realm_update_dict l2 e)
    ∧ (∀ (l1 l2 : String) (e : EventDict) (f1 f2 f3 f4 f5 : Bool),
        check_update_message l1 e f1 f2 f3 f4 f5 = check_update_message l2 e f1 f2 f3 f4 f5) := by
  refine ⟨?_, fun l1 l2 e mt n lg => rfl, fun l1 l2 e => rfl, fun l1 l2 e => rfl,
    fun l1 l2 e fl => rfl, fun cat l1 l2 e p => rfl, fun l1 l2 e => rfl,
    fun l1 l2 e f1 f2 f3 f4 f5 => rfl⟩
  intro c hc l1 l2 e
  fin_cases hc <;> exact ⟨rfl, rfl⟩

/-- Witness for C8: the delete-message base checker is in the list, its
double invocation on a concrete event agrees with itself, and its outcome
is label-independent. -/
theorem checkers_deterministic_witness :
    base_check_delete_message ∈ all_base_checkers
    ∧ (invoke_twice base_check_delete_message "first" delete_stream_legacy_event).1
      = (invoke_twice base_check_delete_message "first" delete_stream_legacy_event).2
    ∧ base_check_delete_message "first" delete_stream_legacy_event
      = base_check_delete_message "second" delete_stream_legacy_event :=
  ⟨List.Mem.head _,
   (checkers_deterministic.1 base_check_delete_message (List.Mem.head _)
      "first" "second" delete_stream_legacy_event).1,
   (checkers_deterministic.1 base_check_delete_message (List.Mem.head _)
      "first" "second" delete_stream_legacy_event).2⟩
